import Mathlib

/-!
Verification of the real-time sensor-reading distribution core of the
`iot-dashboard` repository (NestJS backend: `IotService`,
`WebsocketGateway`, `DataSimulationService`), as a shallow embedding.

Numeric sensor values are embedded as rationals: the source only compares
values (never rounds or accumulates across the claims below), and `<`/`>`
on IEEE doubles agrees with the order on the rationals they denote.
Timestamps are embedded as naturals. Asynchronous store access is
embedded by passing the fetch outcome explicitly (`Except Unit _` for a
query that can reject, `Option _` for a query that can come back empty).
-/

namespace IotDashboard

/-- `alertThreshold` subdocument of the `Sensor` schema
(`sensor.schema.ts`): `{ min: number, max: number }`. -/
structure AlertThreshold where
  min : ℚ
  max : ℚ
  deriving Repr, DecidableEq

/-- The fields of the `Sensor` schema (`sensor.schema.ts`) that the
fan-out core reads.  `alertThreshold` is optional in the schema. -/
structure Sensor where
  sensorId : String
  name : String
  type : String
  location : String
  unit : String
  alertThreshold : Option AlertThreshold
  isActive : Bool
  deriving Repr, DecidableEq

/-- The fields of the `SensorData` schema (`sensor-data.schema.ts`) that
the core reads: one timestamped measurement. -/
structure SensorData where
  sensorId : String
  value : ℚ
  timestamp : ℕ
  deriving Repr, DecidableEq

/-- `IotService.getAllSensors`: `sensorModel.find({ isActive: true })` —
the active sensors, in store order. -/
def getAllSensors (store : List Sensor) : List Sensor :=
  store.filter (·.isActive)

/-- Alert tag used by `IotService.getSensorAlerts`:
`alertType: "high" | "low"`. -/
inductive AlertType where
  | high
  | low
  deriving Repr, DecidableEq

/-- One entry of `IotService.getSensorAlerts`'s result:
`{ sensor, latestValue, alertType, timestamp }`. -/
structure Alert where
  sensor : Sensor
  latestValue : ℚ
  alertType : AlertType
  timestamp : ℕ
  deriving Repr, DecidableEq

/-- The loop body of `IotService.getSensorAlerts` for one sensor
(part_007 lines 202-227): skip the sensor when it has no
`alertThreshold` (`continue`); skip when the latest-data query returns
nothing; otherwise `value > max` gives a `high` alert, else
`value < min` gives a `low` alert, else no alert. -/
def evaluateAlert (sensor : Sensor) (latestData : Option SensorData) :
    Option Alert :=
  match sensor.alertThreshold with
  | none => none
  | some th =>
    match latestData with
    | none => none
    | some d =>
      if d.value > th.max then
        some ⟨sensor, d.value, AlertType.high, d.timestamp⟩
      else if d.value < th.min then
        some ⟨sensor, d.value, AlertType.low, d.timestamp⟩
      else
        none

/-- `IotService.getSensorAlerts`: iterate the active sensors, collecting
the alerts produced by the per-sensor loop body.  `latest` is the
store's "latest reading for this sensorId" query
(`sensorDataModel.findOne({sensorId}).sort({timestamp:-1})`). -/
def getSensorAlerts (store : List Sensor) (latest : String → Option SensorData) :
    List Alert :=
  (getAllSensors store).filterMap (fun s => evaluateAlert s (latest s.sensorId))

/-- `IotService.getLatestReadings` (iot.service.ts lines 125-147): fetch
the active sensors, then sequentially `await` the latest reading of each
and pair it with the sensor; `data` is `null` when the store holds no
reading.  The loop body has no try/catch, so a rejected per-sensor query
propagates out of the whole call; `fetchLatest` returns
`Except.error ()` for a rejected query and `Except.ok none` for a query
that resolves with no document. -/
def fetchReadings (sensors : List Sensor)
    (fetchLatest : String → Except Unit (Option SensorData)) :
    Except Unit (List (Sensor × Option SensorData)) :=
  match sensors with
  | [] => Except.ok []
  | s :: rest => do
    let d ← fetchLatest s.sensorId
    let tail ← fetchReadings rest fetchLatest
    Except.ok ((s, d) :: tail)

/-- `IotService.getLatestReadings` entry point: filters to active
sensors (`getAllSensors`) and runs the fetch loop. -/
def getLatestReadings (store : List Sensor)
    (fetchLatest : String → Except Unit (Option SensorData)) :
    Except Unit (List (Sensor × Option SensorData)) :=
  fetchReadings (getAllSensors store) fetchLatest

/-- One socket.io client as the gateway sees it: its id (key of the
`connectedClients` map) and the rooms it has joined via the `joinRoom`
message.  A freshly connected client has joined no room. -/
structure Client where
  id : String
  rooms : List String
  deriving Repr, DecidableEq

/-- One `emit` the gateway performed, as observed by a single recipient:
which client received which event, and — for `sensorUpdate` events — the
`sensorId` carried in the payload. -/
structure Delivery where
  clientId : String
  event : String
  payloadSensorId : Option String
  deriving Repr, DecidableEq

/-- The mutable state of `WebsocketGateway` together with an observation
log.  `inFlight` counts broadcast-cycle callback invocations that have
started (entered the `setInterval` callback past the client-count guard
and issued `getLatestReadings`) and not yet finished; the source has no
flag preventing a new invocation while one is suspended on `await`.
`delivered` logs every (recipient, event) pair produced by an `emit`;
`errorsLogged` counts `logger.error` calls; `storeQueries` counts
`getLatestReadings` calls issued to the store. -/
structure GatewayState where
  connectedClients : List Client
  inFlight : ℕ
  delivered : List Delivery
  errorsLogged : ℕ
  storeQueries : ℕ
  deriving Repr, DecidableEq

/-- socket.io `server.emit(event, …)` sends the event to every connected
socket; room membership plays no part (only `server.to(room).emit`,
which the gateway never calls, filters by room).  One `Delivery` per
connected client. -/
def serverEmit (clients : List Client) (event : String)
    (payloadSensorId : Option String) : List Delivery :=
  clients.map (fun c => { clientId := c.id, event := event, payloadSensorId := payloadSensorId })

/-- `client.emit(event, …)` sends the event to that one client. -/
def clientEmit (clientId : String) (event : String)
    (payloadSensorId : Option String) : List Delivery :=
  [⟨clientId, event, payloadSensorId⟩]

/-- `WebsocketGateway.handleConnection`: put the client into
`connectedClients` (it has joined no room yet) and immediately run
`sendLatestDataToClient`, which emits `latestReadings` to the client
when `getLatestReadings` resolves and logs an error when it rejects.
`initialFetch` is the outcome of that `getLatestReadings` call. -/
def handleConnection (s : GatewayState) (clientId : String)
    (initialFetch : Except Unit (List (Sensor × Option SensorData))) :
    GatewayState :=
  let s' := { s with connectedClients := s.connectedClients ++ [Client.mk clientId []] }
  match initialFetch with
  | Except.ok _ =>
    { s' with delivered := s'.delivered ++ clientEmit clientId "latestReadings" none }
  | Except.error _ =>
    { s' with errorsLogged := s'.errorsLogged + 1 }

/-- `WebsocketGateway.handleDisconnect`: remove the client from
`connectedClients`. -/
def handleDisconnect (s : GatewayState) (clientId : String) : GatewayState :=
  { s with connectedClients := s.connectedClients.filter (·.id ≠ clientId) }

/-- `WebsocketGateway.handleJoinRoom`: `client.join(room)` — add the room
to the client's room set (a set, so joining a room twice is a no-op) and
log.  There is no validation of the room string and no error path: every
call succeeds and returns nothing to the caller. -/
def handleJoinRoom (s : GatewayState) (clientId room : String) : GatewayState :=
  { s with connectedClients := s.connectedClients.map (fun c =>
      if c.id = clientId ∧ room ∉ c.rooms then { c with rooms := c.rooms ++ [room] }
      else c) }

/-- `WebsocketGateway.handleLeaveRoom`: `client.leave(room)` — remove the
room from the client's room set; again no validation, no error path. -/
def handleLeaveRoom (s : GatewayState) (clientId room : String) : GatewayState :=
  { s with connectedClients := s.connectedClients.map (fun c =>
      if c.id = clientId then { c with rooms := c.rooms.filter (· ≠ room) }
      else c) }

/-- One firing of the `setInterval` callback installed by
`WebsocketGateway.startDataBroadcast`, up to its first `await`: if no
client is connected the callback does nothing at all; otherwise it
issues `getLatestReadings` to the store and the invocation is now in
flight, suspended on the `await`.  Nothing in the source checks whether
a previous invocation is still in flight. -/
def broadcastTick (s : GatewayState) : GatewayState :=
  if s.connectedClients.length > 0 then
    { s with inFlight := s.inFlight + 1, storeQueries := s.storeQueries + 1 }
  else
    s

/-- Resumption of one in-flight broadcast invocation when its
`getLatestReadings` promise settles.  On resolution the gateway emits
`latestReadings` to every connected client, then one `sensorUpdate` per
reading whose `data` is non-null (again to every connected client); on
rejection the catch block logs the error and emits nothing.  Either way
the invocation leaves the in-flight set and the interval keeps running. -/
def broadcastComplete (s : GatewayState)
    (result : Except Unit (List (Sensor × Option SensorData))) : GatewayState :=
  if s.inFlight = 0 then s
  else
    match result with
    | Except.ok readings =>
      { s with
        inFlight := s.inFlight - 1
        delivered := s.delivered ++ serverEmit s.connectedClients "latestReadings" none ++
          (readings.filterMap (fun r =>
            match r.2 with
            | some _ => some r.1.sensorId
            | none => none)).flatMap
            (fun sid => serverEmit s.connectedClients "sensorUpdate" (some sid)) }
    | Except.error _ =>
      { s with inFlight := s.inFlight - 1, errorsLogged := s.errorsLogged + 1 }

/-- `WebsocketGateway.broadcastSensorUpdate(sensorId)`: look up the
sensor (`getSensorById`, which filters on `isActive`) and its latest
data (`getSensorData(sensorId, 1)`); if the sensor exists and the data
list is non-empty, `server.emit("sensorUpdate", …)` — to every connected
client; otherwise emit nothing.  A rejected lookup is caught and
logged. -/
def broadcastSensorUpdate (s : GatewayState) (sensorId : String)
    (sensorLookup : Except Unit (Option Sensor))
    (dataLookup : Except Unit (List SensorData)) : GatewayState :=
  match sensorLookup, dataLookup with
  | Except.ok (some _), Except.ok (_ :: _) =>
    { s with delivered := s.delivered ++ serverEmit s.connectedClients "sensorUpdate" (some sensorId) }
  | Except.ok _, Except.ok _ => s
  | Except.error _, _ =>
    { s with errorsLogged := s.errorsLogged + 1 }
  | _, Except.error _ =>
    { s with errorsLogged := s.errorsLogged + 1 }

/-- A topic identifier the spec would call malformed.  The spec leaves
"malformed" abstract (a topic is either the global `"*"` or a sensor
id); the empty string is malformed under every reading — it is neither
`"*"` nor a sensor id (`sensorId` is a required non-empty key). -/
def isMalformedTopic (t : String) : Bool :=
  t = ""

/-- State of `DataSimulationService` together with an observation log of
its recurring work.  `intervals` holds the timer handles pushed by
`startSimulation` (`simulationIntervals`); `inFlight` counts callback
invocations of those timers that have started and not yet finished
(e.g. suspended awaiting `addSensorData`); `writesCompleted` counts
finished invocations. -/
structure SimState where
  intervals : List ℕ
  inFlight : ℕ
  writesCompleted : ℕ
  deriving Repr, DecidableEq

/-- One firing of simulation timer `t`: the callback runs only while the
timer is still registered (`clearInterval` cancels all future firings);
a firing starts one callback invocation. -/
def simTick (s : SimState) (t : ℕ) : SimState :=
  if t ∈ s.intervals then { s with inFlight := s.inFlight + 1 }
  else s

/-- Completion of one in-flight simulation callback invocation: its
pending `addSensorData` writes finish.  `clearInterval` does not abort a
callback that has already started, so completion is independent of the
timer list. -/
def simComplete (s : SimState) : SimState :=
  if s.inFlight = 0 then s
  else { s with inFlight := s.inFlight - 1, writesCompleted := s.writesCompleted + 1 }

/-- `DataSimulationService.stopSimulation`: `clearInterval` every handle
in `simulationIntervals`, then reset the array to `[]`.  Nothing touches
an invocation already in progress. -/
def stopSimulation (s : SimState) : SimState :=
  { s with intervals := [] }

/-! ### Concrete fixtures (the repository's own default sensors) -/

/-- `TEMP_001` from `initializeSensors`, given the alert threshold of
Scenario A of the spec (18-26). -/
def tempSensor1 : Sensor :=
  { sensorId := "TEMP_001", name := "Temperature Sensor 1", type := "temperature",
    location := "Server Room", unit := "°C",
    alertThreshold := some (AlertThreshold.mk 18 26), isActive := true }

/-- `TEMP_002` from `initializeSensors`: no alert threshold. -/
def tempSensor2 : Sensor :=
  { sensorId := "TEMP_002", name := "Temperature Sensor 2", type := "temperature",
    location := "Office Area", unit := "°C",
    alertThreshold := none, isActive := true }

/-- A reading of 30 on `TEMP_001` (Scenario A's out-of-range value). -/
def reading30 : SensorData :=
  { sensorId := "TEMP_001", value := 30, timestamp := 1 }

/-- Shape of `evaluateAlert` once the sensor's threshold is known. -/
theorem evaluateAlert_of_threshold (sensor : Sensor) (th : AlertThreshold)
    (d : SensorData) (hth : sensor.alertThreshold = some th) :
    evaluateAlert sensor (some d) =
      if th.max < d.value then some ⟨sensor, d.value, AlertType.high, d.timestamp⟩
      else if d.value < th.min then some ⟨sensor, d.value, AlertType.low, d.timestamp⟩
      else none := by
  simp only [evaluateAlert, hth, gt_iff_lt]

/-- **C2** — For every sensor with alert threshold `{min, max}` (well
formed: `min ≤ max`) and every present reading, the per-sensor alert
evaluation of `IotService.getSensorAlerts` yields `high` (the source's
name for `above`) iff `value > max`, `low` (`below`) iff `value < min`,
and no alert otherwise; boundary values are not alerts; a sensor without
a threshold, or an absent reading, never yields an alert. -/
theorem evaluateAlert_threshold_correct (sensor : Sensor) (th : AlertThreshold)
    (d : SensorData) (hth : sensor.alertThreshold = some th)
    (hminmax : th.min ≤ th.max) :
    ((evaluateAlert sensor (some d)).map Alert.alertType = some AlertType.high ↔
      th.max < d.value) ∧
    ((evaluateAlert sensor (some d)).map Alert.alertType = some AlertType.low ↔
      d.value < th.min) ∧
    (th.min ≤ d.value ∧ d.value ≤ th.max → evaluateAlert sensor (some d) = none) ∧
    ((d.value = th.min ∨ d.value = th.max) → evaluateAlert sensor (some d) = none) ∧
    evaluateAlert sensor none = none ∧
    (∀ (s2 : Sensor) (r : Option SensorData), s2.alertThreshold = none →
      evaluateAlert s2 r = none) := by
  rw [evaluateAlert_of_threshold sensor th d hth]
  refine ⟨?_, ?_, ?_, ?_, by simp [evaluateAlert, hth], ?_⟩
  · split_ifs with h1 h2 <;> simp_all
  · split_ifs with h1 h2 <;> simp_all
    linarith
  · rintro ⟨hlo, hhi⟩
    rw [if_neg (by linarith), if_neg (by linarith)]
  · rintro (he | he) <;> rw [if_neg (by rw [he]; linarith), if_neg (by rw [he]; linarith)]
  · intro s2 r h2
    cases r <;> simp [evaluateAlert, h2]

/-- Witness for C2 at Scenario A's input: `TEMP_001` with threshold
18-26 and reading 30 evaluates to a `high` alert. -/
theorem evaluateAlert_threshold_correct_witness :
    ((evaluateAlert tempSensor1 (some reading30)).map Alert.alertType =
        some AlertType.high ↔ (26 : ℚ) < 30) ∧
    ((evaluateAlert tempSensor1 (some reading30)).map Alert.alertType =
        some AlertType.low ↔ (30 : ℚ) < 18) ∧
    ((18 : ℚ) ≤ 30 ∧ (30 : ℚ) ≤ 26 → evaluateAlert tempSensor1 (some reading30) = none) ∧
    (((30 : ℚ) = 18 ∨ (30 : ℚ) = 26) → evaluateAlert tempSensor1 (some reading30) = none) ∧
    evaluateAlert tempSensor1 none = none ∧
    (∀ (s2 : Sensor) (r : Option SensorData), s2.alertThreshold = none →
      evaluateAlert s2 r = none) :=
  evaluateAlert_threshold_correct tempSensor1 (AlertThreshold.mk 18 26) reading30
    rfl (by norm_num)

/-- `fetchReadings` on a list whose every fetch resolves (to a document
or to nothing) produces the order-preserving pairing. -/
theorem fetchReadings_ok_of_resolves (fetch : String → Except Unit (Option SensorData))
    (d : String → Option SensorData) :
    ∀ l : List Sensor, (∀ s ∈ l, fetch s.sensorId = Except.ok (d s.sensorId)) →
      fetchReadings l fetch = Except.ok (l.map (fun s => (s, d s.sensorId)))
  | [], _ => rfl
  | s :: rest, h => by
    have hs := h s (List.mem_cons_self s rest)
    have ht := fetchReadings_ok_of_resolves fetch d rest
      (fun x hx => h x (List.mem_cons_of_mem s hx))
    simp only [fetchReadings, List.map_cons, hs, ht]
    rfl

/-- **C3 (amended)** — Whenever every per-sensor latest-reading query of
`IotService.getLatestReadings` resolves (with a document or with
`null`), the call returns exactly one entry per active descriptor, in
descriptor order, pairing each descriptor with its latest reading or
`none`; in particular the count equals the descriptor count.  (The
unamended claim's failure tolerance is refuted separately: a rejected
query fails the whole call.) -/
theorem getLatestReadings_complete_when_fetches_resolve (store : List Sensor)
    (fetch : String → Except Unit (Option SensorData))
    (d : String → Option SensorData)
    (h : ∀ s ∈ getAllSensors store, fetch s.sensorId = Except.ok (d s.sensorId)) :
    getLatestReadings store fetch =
      Except.ok ((getAllSensors store).map (fun s => (s, d s.sensorId))) ∧
    ∃ l, getLatestReadings store fetch = Except.ok l ∧
      l.length = (getAllSensors store).length := by
  have hmain := fetchReadings_ok_of_resolves fetch d (getAllSensors store) h
  refine ⟨hmain, _, hmain, by simp⟩

/-- Witness for C3 (amended): both default temperature sensors, with a
store that has a reading for `TEMP_001` and nothing for `TEMP_002`. -/
theorem getLatestReadings_complete_witness :
    getLatestReadings [tempSensor1, tempSensor2]
        (fun sid => Except.ok (if sid = "TEMP_001" then some reading30 else none)) =
      Except.ok [(tempSensor1, some reading30), (tempSensor2, none)] := by
  have h := getLatestReadings_complete_when_fetches_resolve
    [tempSensor1, tempSensor2]
    (fun sid => Except.ok (if sid = "TEMP_001" then some reading30 else none))
    (fun sid => if sid = "TEMP_001" then some reading30 else none)
    (by intro s _; rfl)
  exact h.1.trans (by rfl)

/-- **C3 (counterexample)** — One active sensor whose latest-reading
query rejects: `getLatestReadings` rejects as a whole instead of
recording `absent` for that sensor, so a failed fetch does fail the
snapshot. -/
theorem getLatestReadings_fetch_error_fails_snapshot :
    getLatestReadings [tempSensor1] (fun _ => Except.error ()) = Except.error () ∧
    ∀ l, getLatestReadings [tempSensor1] (fun _ => Except.error ()) ≠ Except.ok l := by
  refine ⟨rfl, ?_⟩
  intro l hl
  rw [show getLatestReadings [tempSensor1] (fun _ => Except.error ()) =
    Except.error () from rfl] at hl
  exact Except.noConfusion hl

/-- A gateway state with a single connected client `"A"` that has
joined no room, between broadcast cycles. -/
def gwOneClient : GatewayState :=
  { connectedClients := [Client.mk "A" []], inFlight := 0, delivered := [],
    errorsLogged := 0, storeQueries := 0 }

/-- A gateway state with no connected clients. -/
def gwNoClients : GatewayState :=
  { connectedClients := [], inFlight := 0, delivered := [],
    errorsLogged := 0, storeQueries := 0 }

/-- A gateway state with client `"A"` joined only to room `"X"` and
client `"B"` joined to `"*"`. -/
def gwTwoRooms : GatewayState :=
  { connectedClients := [Client.mk "A" ["X"], Client.mk "B" ["*"]],
    inFlight := 0, delivered := [], errorsLogged := 0, storeQueries := 0 }

/-- **C1 (counterexample)** — With one connected client, a second timer
tick that fires while the first cycle is still in flight is not skipped:
after two ticks with no completion in between, two broadcast cycles are
in flight at once and two store queries have been issued.  The source's
`setInterval` callback has no running-flag, so the claimed at-most-one
bound fails. -/
theorem broadcastTick_overlap_counterexample :
    (broadcastTick (broadcastTick gwOneClient)).inFlight = 2 ∧
    (broadcastTick (broadcastTick gwOneClient)).storeQueries = 2 ∧
    (broadcastTick gwOneClient).inFlight = 1 := by
  refine ⟨rfl, rfl, rfl⟩

/-- **C1 (amended)** — A timer tick with at least one connected client
always starts a new broadcast cycle (issuing one store query),
regardless of how many cycles are already in flight; nothing skips the
tick, so the number of concurrently running cycles is unbounded rather
than capped at one.  Ticks are skipped only when no client is
connected. -/
theorem broadcastTick_starts_cycle_unconditionally (s : GatewayState)
    (h : s.connectedClients ≠ []) :
    (broadcastTick s).inFlight = s.inFlight + 1 ∧
    (broadcastTick s).storeQueries = s.storeQueries + 1 := by
  have hlen : 0 < s.connectedClients.length := List.length_pos.mpr h
  simp [broadcastTick, hlen]

/-- Witness for C1 (amended): ticking the one-client state while a cycle
is already in flight. -/
theorem broadcastTick_starts_cycle_witness :
    (broadcastTick (broadcastTick gwOneClient)).inFlight =
      (broadcastTick gwOneClient).inFlight + 1 ∧
    (broadcastTick (broadcastTick gwOneClient)).storeQueries =
      (broadcastTick gwOneClient).storeQueries + 1 :=
  broadcastTick_starts_cycle_unconditionally (broadcastTick gwOneClient)
    (by decide)

/-- **C10** — A timer tick with no connected clients is a complete
no-op: the state (store-query count, in-flight cycles, delivery log,
error log, client list) is exactly unchanged, so no latest-readings
query is issued and nothing is emitted. -/
theorem broadcastTick_noop_without_clients (s : GatewayState)
    (h : s.connectedClients = []) :
    broadcastTick s = s := by
  simp [broadcastTick, h]

/-- Witness for C10 at the concrete empty-client state. -/
theorem broadcastTick_noop_witness : broadcastTick gwNoClients = gwNoClients :=
  broadcastTick_noop_without_clients gwNoClients rfl

/-- **C7** — When the full-snapshot store query of an in-flight
broadcast cycle rejects, the catch block logs one error, nothing is
delivered to any subscriber, the client list is untouched, the cycle
leaves the in-flight set, and the interval keeps running: the next tick
(with a client connected) issues a fresh store query as usual. -/
theorem broadcast_cycle_error_isolated (s : GatewayState) (h : 0 < s.inFlight) :
    (broadcastComplete s (Except.error ())).delivered = s.delivered ∧
    (broadcastComplete s (Except.error ())).errorsLogged = s.errorsLogged + 1 ∧
    (broadcastComplete s (Except.error ())).inFlight = s.inFlight - 1 ∧
    (broadcastComplete s (Except.error ())).connectedClients = s.connectedClients ∧
    (s.connectedClients ≠ [] →
      (broadcastTick (broadcastComplete s (Except.error ()))).storeQueries =
        s.storeQueries + 1) := by
  have hne : s.inFlight ≠ 0 := Nat.pos_iff_ne_zero.mp h
  refine ⟨?_, ?_, ?_, ?_, ?_⟩ <;>
    simp [broadcastComplete, broadcastTick, hne]
  intro hcl
  have hlen : 0 < s.connectedClients.length := List.length_pos.mpr hcl
  simp [hlen]

/-- Witness for C7: the one-client state with one cycle in flight whose
fetch rejects. -/
theorem broadcast_cycle_error_witness :
    (broadcastComplete (broadcastTick gwOneClient) (Except.error ())).delivered =
      (broadcastTick gwOneClient).delivered ∧
    (broadcastComplete (broadcastTick gwOneClient) (Except.error ())).errorsLogged =
      (broadcastTick gwOneClient).errorsLogged + 1 ∧
    (broadcastComplete (broadcastTick gwOneClient) (Except.error ())).inFlight =
      (broadcastTick gwOneClient).inFlight - 1 ∧
    (broadcastComplete (broadcastTick gwOneClient) (Except.error ())).connectedClients =
      (broadcastTick gwOneClient).connectedClients ∧
    ((broadcastTick gwOneClient).connectedClients ≠ [] →
      (broadcastTick (broadcastComplete (broadcastTick gwOneClient)
          (Except.error ()))).storeQueries =
        (broadcastTick gwOneClient).storeQueries + 1) :=
  broadcast_cycle_error_isolated (broadcastTick gwOneClient) (by decide)

/-- **C4 (counterexample)** — Client `"A"` is joined only to topic
`"X"`, yet a per-sensor dispatch for `TEMP_002` (a different sensor) is
delivered to it: `broadcastSensorUpdate` uses `server.emit`, which
ignores rooms, so topic filtering does not happen. -/
theorem broadcastSensorUpdate_ignores_topic_counterexample :
    Delivery.mk "A" "sensorUpdate" (some "TEMP_002") ∈
      (broadcastSensorUpdate gwTwoRooms "TEMP_002" (Except.ok (some tempSensor2))
        (Except.ok [SensorData.mk "TEMP_002" 22 5])).delivered := by
  decide

/-- **C4 (amended)** — Both dispatch paths deliver to every connected
client regardless of its room set: a successful per-sensor dispatch
reaches every client (whatever rooms it joined), and the full-snapshot
emission of a completing broadcast cycle likewise reaches every client,
not only `"*"` subscribers. -/
theorem dispatch_delivers_to_all_clients (s : GatewayState) (sid : String)
    (sensor : Sensor) (ds : List SensorData)
    (readings : List (Sensor × Option SensorData)) (c : Client)
    (hc : c ∈ s.connectedClients) (hds : ds ≠ []) (hin : 0 < s.inFlight) :
    Delivery.mk c.id "sensorUpdate" (some sid) ∈
      (broadcastSensorUpdate s sid (Except.ok (some sensor)) (Except.ok ds)).delivered ∧
    Delivery.mk c.id "latestReadings" none ∈
      (broadcastComplete s (Except.ok readings)).delivered := by
  have hne : s.inFlight ≠ 0 := Nat.pos_iff_ne_zero.mp hin
  constructor
  · obtain ⟨d0, ds', rfl⟩ : ∃ d0 ds', ds = d0 :: ds' := by
      cases ds with
      | nil => exact absurd rfl hds
      | cons d0 ds' => exact ⟨d0, ds', rfl⟩
    simp only [broadcastSensorUpdate, serverEmit, List.mem_append, List.mem_map]
    exact Or.inr ⟨c, hc, rfl⟩
  · simp only [broadcastComplete, hne, if_neg, ite_false, serverEmit,
      List.mem_append, List.mem_map]
    exact Or.inl (Or.inr ⟨c, hc, rfl⟩)

/-- Witness for C4 (amended): the two-room state mid-cycle; the
`"X"`-only client `"A"` receives a `TEMP_002` update and the snapshot
emission. -/
theorem dispatch_delivers_to_all_clients_witness :
    Delivery.mk (Client.mk "A" ["X"]).id "sensorUpdate" (some "TEMP_002") ∈
      (broadcastSensorUpdate (broadcastTick gwTwoRooms) "TEMP_002"
        (Except.ok (some tempSensor2))
        (Except.ok [SensorData.mk "TEMP_002" 22 5])).delivered ∧
    Delivery.mk (Client.mk "A" ["X"]).id "latestReadings" none ∈
      (broadcastComplete (broadcastTick gwTwoRooms) (Except.ok [])).delivered :=
  dispatch_delivers_to_all_clients (broadcastTick gwTwoRooms) "TEMP_002"
    tempSensor2 [SensorData.mk "TEMP_002" 22 5] [] (Client.mk "A" ["X"])
    (by decide) (by decide) (by decide)

/-- **C6 (counterexample)** — A client that connects to the gateway and
never joins any topic is nevertheless sent a `latestReadings` message
immediately, by `handleConnection`'s call to `sendLatestDataToClient`:
delivery does not wait for a Join. -/
theorem handleConnection_sends_before_join_counterexample :
    (handleConnection gwNoClients "A" (Except.ok [])).connectedClients =
      [Client.mk "A" []] ∧
    Delivery.mk "A" "latestReadings" none ∈
      (handleConnection gwNoClients "A" (Except.ok [])).delivered := by
  decide

/-- **C6 (amended)** — Registration does create the subscription with an
empty topic set (the client is stored having joined no room), but the
client is immediately sent the latest readings on connect (when the
fetch resolves); no Join precedes that delivery. -/
theorem handleConnection_empty_rooms_and_initial_send (s : GatewayState)
    (cid : String) (r : List (Sensor × Option SensorData)) :
    Client.mk cid [] ∈ (handleConnection s cid (Except.ok r)).connectedClients ∧
    Delivery.mk cid "latestReadings" none ∈
      (handleConnection s cid (Except.ok r)).delivered := by
  simp [handleConnection, clientEmit]

/-- **C9 (counterexample)** — A Join with the (malformed) empty-string
topic is not rejected: `handleJoinRoom` has no validation and no error
path, and the registry state changes — the client's room set gains
`""`. -/
theorem handleJoinRoom_malformed_accepted_counterexample :
    isMalformedTopic "" = true ∧
    handleJoinRoom gwOneClient "A" "" ≠ gwOneClient ∧
    (handleJoinRoom gwOneClient "A" "").connectedClients = [Client.mk "A" [""]] := by
  decide

/-- **C9 (amended)** — `handleJoinRoom` and `handleLeaveRoom` never
reject a topic: for every topic string (malformed or not), Join adds it
to the client's room set and Leave removes it; both are total and signal
no error to the caller. -/
theorem joinRoom_leaveRoom_no_validation (s : GatewayState) (c : Client)
    (t : String) (hc : c ∈ s.connectedClients) :
    (∃ c' ∈ (handleJoinRoom s c.id t).connectedClients,
      c'.id = c.id ∧ t ∈ c'.rooms) ∧
    (∀ c' ∈ (handleLeaveRoom s c.id t).connectedClients,
      c'.id = c.id → t ∉ c'.rooms) := by
  constructor
  · refine ⟨_, List.mem_map_of_mem _ hc, ?_⟩
    by_cases ht : t ∈ c.rooms
    · rw [if_neg (by simp [ht])]
      exact ⟨rfl, ht⟩
    · rw [if_pos ⟨rfl, ht⟩]
      simp
  · intro c' hc' hid
    simp only [handleLeaveRoom, List.mem_map] at hc'
    obtain ⟨c0, hc0, rfl⟩ := hc'
    by_cases h0 : c0.id = c.id
    · rw [if_pos h0]
      simp
    · rw [if_neg h0] at hid ⊢
      exact absurd hid h0

/-- Witness for C9 (amended): Join/Leave of the malformed topic `""` by
the connected client `"A"`. -/
theorem joinRoom_no_validation_witness :
    (∃ c' ∈ (handleJoinRoom gwOneClient (Client.mk "A" []).id "").connectedClients,
      c'.id = (Client.mk "A" []).id ∧ "" ∈ c'.rooms) ∧
    (∀ c' ∈ (handleLeaveRoom gwOneClient (Client.mk "A" []).id "").connectedClients,
      c'.id = (Client.mk "A" []).id → "" ∉ c'.rooms) :=
  joinRoom_leaveRoom_no_validation gwOneClient (Client.mk "A" []) "" (by decide)

/-- **C8** — `stopSimulation` cancels every registered timer, so no
tick fires afterwards (any firing of a cancelled handle is a no-op); it
does not touch an invocation already in progress, which still completes
its writes exactly as it would have without the Stop; and a second
`stopSimulation` is a no-op. -/
theorem stopSimulation_stops_and_is_idempotent (s : SimState) (t : ℕ) :
    stopSimulation (stopSimulation s) = stopSimulation s ∧
    simTick (stopSimulation s) t = stopSimulation s ∧
    (stopSimulation s).inFlight = s.inFlight ∧
    simComplete (stopSimulation s) = stopSimulation (simComplete s) ∧
    (0 < s.inFlight →
      (simComplete (stopSimulation s)).writesCompleted = s.writesCompleted + 1) := by
  refine ⟨rfl, by simp [simTick, stopSimulation], rfl, ?_, ?_⟩
  · by_cases h : s.inFlight = 0 <;> simp [simComplete, stopSimulation, h]
  · intro h
    simp [simComplete, stopSimulation, Nat.pos_iff_ne_zero.mp h]

/-- Witness for C8: one registered timer handle and one in-flight
callback invocation. -/
theorem stopSimulation_witness :
    stopSimulation (stopSimulation (SimState.mk [7] 1 0)) =
      stopSimulation (SimState.mk [7] 1 0) ∧
    simTick (stopSimulation (SimState.mk [7] 1 0)) 7 =
      stopSimulation (SimState.mk [7] 1 0) ∧
    (stopSimulation (SimState.mk [7] 1 0)).inFlight = (SimState.mk [7] 1 0).inFlight ∧
    simComplete (stopSimulation (SimState.mk [7] 1 0)) =
      stopSimulation (simComplete (SimState.mk [7] 1 0)) ∧
    (0 < (SimState.mk [7] 1 0).inFlight →
      (simComplete (stopSimulation (SimState.mk [7] 1 0))).writesCompleted =
        (SimState.mk [7] 1 0).writesCompleted + 1) :=
  stopSimulation_stops_and_is_idempotent (SimState.mk [7] 1 0) 7

end IotDashboard
